import Mathlib

/-!
Shallow embedding of the update-dispatch and handler-execution core of the
tgx Telegram-bot library (bot.go, message_handlers.go, callback_handlers.go,
requests.go).  Strings routed by the dispatcher are modelled as `List Char`;
Go maps are modelled as association lists whose list order stands for the
map's (unspecified) iteration order; the side effect of calling the fallback
error reporter is modelled by returning the list of its invocations.
-/

namespace Tgx

/-- Models Go `strings.Split(s, sep)` for a single-character separator, as
used in `handleMessageUpdate` (bot.go lines 190 and 200). -/
def splitOnChar (sep : Char) : List Char → List (List Char)
  | [] => [[]]
  | c :: rest =>
    match splitOnChar sep rest with
    | [] => [[c]]
    | t :: ts => if c = sep then [] :: t :: ts else (c :: t) :: ts

/-- Models Go `strings.HasPrefix(text, "/")` (bot.go line 188). -/
def startsWithSlash : List Char → Bool
  | [] => false
  | c :: _ => c = '/'

/-- Models a Go map lookup (`m[k]`) on the association-list representation
of the map. -/
def lookupA {α : Type} : List (List Char × α) → List Char → Option α
  | [], _ => none
  | (k', v) :: rest, k => if k' = k then some v else lookupA rest k

/-- Models Go map assignment `m[k] = v`: overwrite the entry if the key is
already present, otherwise add a new entry. -/
def mapInsert {α : Type} (m : List (List Char × α)) (k : List Char) (v : α) :
    List (List Char × α) :=
  if m.any (fun p => p.1 == k) then
    m.map (fun p => if p.1 = k then (k, v) else p)
  else m ++ [(k, v)]

/-- Models a Go `error` value as produced and inspected by this library:
either a `BotError` (numeric code plus message) or a plain error built with
`fmt.Errorf`. -/
inductive GoErr where
  | botError (code : Nat) (message : String)
  | generic (message : String)
deriving DecidableEq, Repr

def failedParseMsg : String := "Failed to parse command"
def notValidMsg : String := "Not a valid command"
def unknownCommandMsg : String := "Unknown command"
def unsupportedMsg : String :=
  "Unsupported message type received. No handler is available for this message type."
def emptyMsgMsg : String := "Empty message received"

/-- Modelled from the spec: `IsAPIError` is code of this repository that is
not under src/ (only its caller `safeExecute` is).  Per the spec, an error
record "carries a numeric classification code" used uniformly for dispatch
and API-transport failures, and the guard classifies a handler error by
that numeric code; `isAPIError e c` holds iff `e` is such an error record
whose code equals `c`. -/
def isAPIError (e : GoErr) (code : Nat) : Bool :=
  match e with
  | .botError c _ => c = code
  | .generic _ => false

/-- Outcome of running a handler body: normal return with `nil` error,
normal return with an error, or a runtime panic carrying a description. -/
inductive HandlerResult where
  | ok
  | fail (e : GoErr)
  | panics (r : String)

/-- The per-dispatch `Context` of bot.go lines 179-186 (the back-reference
to the bot itself is not part of the model). -/
structure Context where
  text : List Char
  userId : Int
  username : String
  messageId : Int
  chatId : Int
  args : List (List Char) := []
  photo : Option Nat := none
  video : Option Nat := none
  voice : Option Nat := none
  document : Option Nat := none
  animation : Option Nat := none
  sticker : Option Nat := none
  audio : Option Nat := none
  videoNote : Option Nat := none
deriving DecidableEq, Repr

def Handler : Type := Context → HandlerResult

/-- The inbound `models.Message`: sender and chat identity plus the content
fields inspected by the router.  Media payloads are opaque, modelled as
`Option Nat` (`none` is Go `nil`). -/
structure Msg where
  text : List Char
  userId : Int := 0
  username : String := ""
  messageId : Int := 0
  chatId : Int := 0
  photo : Option Nat := none
  video : Option Nat := none
  voice : Option Nat := none
  document : Option Nat := none
  animation : Option Nat := none
  sticker : Option Nat := none
  audio : Option Nat := none
  videoNote : Option Nat := none
deriving DecidableEq, Repr

/-- The inbound `models.CallbackQuery`. -/
structure CallbackQuery where
  id : String
  data : List Char
  message : Option Nat := none
  userId : Int := 0
  username : String := ""
deriving Repr

/-- The per-dispatch `CallbackContext` of callback_handlers.go lines 14-21
(again without the bot back-reference). -/
structure CallbackContext where
  queryId : String
  data : List Char
  message : Option Nat
  userId : Int
  username : String
deriving DecidableEq, Repr

def CbHandler : Type := CallbackContext → Option GoErr

/-- The `Bot` state relevant to dispatch: the three registries and whether
an error handler is set (`b.errorHandler != nil`; `NewBot` installs
`defaultErrorHandler`, so it is set unless explicitly cleared). -/
structure Bot where
  commandHandler : List (List Char × Handler)
  messageHandlers : List (List Char × Handler)
  callbackHandlers : List (List Char × CbHandler)
  ehSet : Bool

/-- `OnMessage` (message_handlers.go lines 7-12); the nil-map
re-initialisation there is a no-op in the list model. -/
def OnMessage (b : Bot) (messageType : List Char) (handler : Handler) : Bot :=
  { b with messageHandlers := mapInsert b.messageHandlers messageType handler }

/-- `OnCallback` (callback_handlers.go lines 9-11). -/
def OnCallback (b : Bot) (data : List Char) (handler : CbHandler) : Bot :=
  { b with callbackHandlers := mapInsert b.callbackHandlers data handler }

/-- `safeExecute` (bot.go lines 290-317).  Returns the error value the Go
function returns, paired with the list of fallback-reporter invocations
`(ctx, err)` it performs.  A recovered panic runs the reporter and then
returns the zero value of the unnamed `error` result, i.e. `nil`. -/
def safeExecute (ehSet : Bool) (ctx : Context) (handler : Handler) :
    Option GoErr × List (Context × GoErr) :=
  match handler ctx with
  | .ok => (none, [])
  | .fail e =>
    if isAPIError e 403 then (some e, [])
    else if isAPIError e 429 then (some e, [])
    else if ehSet then (some e, [(ctx, e)]) else (some e, [])
  | .panics r =>
    let e := GoErr.generic ("handler panic: " ++ r)
    if ehSet then (none, [(ctx, e)]) else (none, [])

def textTag : List Char := "Text".data
def photoTag : List Char := "Photo".data
def videoTag : List Char := "Video".data
def voiceTag : List Char := "Voice".data
def documentTag : List Char := "Document".data
def animationTag : List Char := "Animation".data
def stickerTag : List Char := "Sticker".data
def audioTag : List Char := "Audio".data
def videoNoteTag : List Char := "VideoNote".data

/-- Result of one `handleMessageUpdate` call: the returned error, the
handler invocations performed (dispatch key and the Context passed), and
the fallback-reporter invocations performed under the Execution Guard. -/
structure DispatchResult where
  retErr : Option GoErr
  invoked : List (List Char × Context)
  reported : List (Context × GoErr)
deriving DecidableEq, Repr

/-- The Context built at bot.go lines 179-186, before any argument or
content field is attached. -/
def baseCtx (m : Msg) : Context :=
  { text := m.text, userId := m.userId, username := m.username,
    messageId := m.messageId, chatId := m.chatId }

/-- `handleMessageUpdate` (bot.go lines 165-288).  `none` models a `nil`
message pointer.  The deferred recover at lines 173-177 never fires in the
model because handler panics are already absorbed inside `safeExecute`. -/
def handleMessageUpdate (b : Bot) : Option Msg → DispatchResult
  | none => ⟨some (.botError 400 emptyMsgMsg), [], []⟩
  | some m =>
    let ctx0 := baseCtx m
    if startsWithSlash m.text then
      match splitOnChar ' ' m.text with
      | [] => ⟨some (.botError 500 failedParseMsg), [], []⟩
      | p0 :: rest =>
        match splitOnChar '/' p0 with
        | [] => ⟨some (.botError 500 notValidMsg), [], []⟩
        | [_] => ⟨some (.botError 500 notValidMsg), [], []⟩
        | _ :: c1 :: _ =>
          let ctx := if 0 < rest.length then { ctx0 with args := rest } else ctx0
          match lookupA b.commandHandler c1 with
          | some h =>
            let r := safeExecute b.ehSet ctx h
            ⟨r.1, [(c1, ctx)], r.2⟩
          | none => ⟨some (.botError 404 unknownCommandMsg), [], []⟩
    else if m.text ≠ [] then
      match lookupA b.messageHandlers textTag with
      | some h =>
        let r := safeExecute b.ehSet ctx0 h
        ⟨r.1, [(textTag, ctx0)], r.2⟩
      | none => ⟨none, [], []⟩
    else if m.photo.isSome then
      match lookupA b.messageHandlers photoTag with
      | some h =>
        let ctx := { ctx0 with photo := m.photo }
        let r := safeExecute b.ehSet ctx h
        ⟨r.1, [(photoTag, ctx)], r.2⟩
      | none => ⟨none, [], []⟩
    else if m.video.isSome then
      match lookupA b.messageHandlers videoTag with
      | some h =>
        let ctx := { ctx0 with video := m.video }
        let r := safeExecute b.ehSet ctx h
        ⟨r.1, [(videoTag, ctx)], r.2⟩
      | none => ⟨none, [], []⟩
    else if m.voice.isSome then
      match lookupA b.messageHandlers voiceTag with
      | some h =>
        let ctx := { ctx0 with voice := m.voice }
        let r := safeExecute b.ehSet ctx h
        ⟨r.1, [(voiceTag, ctx)], r.2⟩
      | none => ⟨none, [], []⟩
    else if m.document.isSome then
      match lookupA b.messageHandlers documentTag with
      | some h =>
        let ctx := { ctx0 with document := m.document }
        let r := safeExecute b.ehSet ctx h
        ⟨r.1, [(documentTag, ctx)], r.2⟩
      | none => ⟨none, [], []⟩
    else if m.animation.isSome then
      match lookupA b.messageHandlers animationTag with
      | some h =>
        let ctx := { ctx0 with animation := m.animation }
        let r := safeExecute b.ehSet ctx h
        ⟨r.1, [(animationTag, ctx)], r.2⟩
      | none => ⟨none, [], []⟩
    else if m.sticker.isSome then
      match lookupA b.messageHandlers stickerTag with
      | some h =>
        let ctx := { ctx0 with sticker := m.sticker }
        let r := safeExecute b.ehSet ctx h
        ⟨r.1, [(stickerTag, ctx)], r.2⟩
      | none => ⟨none, [], []⟩
    else if m.audio.isSome then
      match lookupA b.messageHandlers audioTag with
      | some h =>
        let ctx := { ctx0 with audio := m.audio }
        let r := safeExecute b.ehSet ctx h
        ⟨r.1, [(audioTag, ctx)], r.2⟩
      | none => ⟨none, [], []⟩
    else if m.videoNote.isSome then
      match lookupA b.messageHandlers videoNoteTag with
      | some h =>
        let ctx := { ctx0 with videoNote := m.videoNote }
        let r := safeExecute b.ehSet ctx h
        ⟨r.1, [(videoNoteTag, ctx)], r.2⟩
      | none => ⟨none, [], []⟩
    else
      ⟨some (.botError 400 unsupportedMsg), [], []⟩

/-- The CallbackContext built at callback_handlers.go lines 14-21. -/
def mkCbCtx (q : CallbackQuery) : CallbackContext :=
  { queryId := q.id, data := q.data, message := q.message,
    userId := q.userId, username := q.username }

/-- The fallback loop of `handleCallbackQuery` (callback_handlers.go lines
34-43): walk the registry in its iteration order and invoke the handler of
the first key that is a prefix of the callback data (Go
`strings.HasPrefix(cb.Data, data)`). -/
def cbLoop (d : List Char) (ctx : CallbackContext) :
    List (List Char × CbHandler) → Option GoErr × List (List Char × CallbackContext)
  | [] => (none, [])
  | (k, h) :: rest =>
    if k.isPrefixOf d then (h ctx, [(k, ctx)]) else cbLoop d ctx rest

/-- `handleCallbackQuery` (callback_handlers.go lines 13-47): exact-match
lookup first, then the prefix fallback loop, else log and return `nil`.
The second component lists the handler invocations performed (matched key
and the CallbackContext passed). -/
def handleCallbackQuery (b : Bot) (q : CallbackQuery) :
    Option GoErr × List (List Char × CallbackContext) :=
  match lookupA b.callbackHandlers q.data with
  | some h => (h (mkCbCtx q), [(q.data, mkCbCtx q)])
  | none => cbLoop q.data (mkCbCtx q) b.callbackHandlers

/-- First registry entry whose key is a prefix of the callback data, in the
registry's iteration order; the value `cbLoop` dispatches on. -/
def findPrefixed (m : List (List Char × CbHandler)) (d : List Char) :
    Option (List Char × CbHandler) :=
  m.find? (fun p => p.1.isPrefixOf d)

/-- The command-name extraction performed by `handleMessageUpdate` at
bot.go lines 190-216: the first space-separated token is split on
Go slashes and the element at index 1 is the command name; `none` models the
two malformed-command error returns. -/
def commandName (text : List Char) : Option (List Char) :=
  match splitOnChar ' ' text with
  | [] => none
  | p0 :: _ =>
    match splitOnChar '/' p0 with
    | [] => none
    | [_] => none
    | _ :: c1 :: _ => some c1

/-- Content tags of the populated content fields of a message, in the fixed
priority order the router inspects them (bot.go lines 234-278). -/
def popList (m : Msg) : List (List Char) :=
  (if m.text ≠ [] then [textTag] else []) ++
  (if m.photo.isSome then [photoTag] else []) ++
  (if m.video.isSome then [videoTag] else []) ++
  (if m.voice.isSome then [voiceTag] else []) ++
  (if m.document.isSome then [documentTag] else []) ++
  (if m.animation.isSome then [animationTag] else []) ++
  (if m.sticker.isSome then [stickerTag] else []) ++
  (if m.audio.isSome then [audioTag] else []) ++
  (if m.videoNote.isSome then [videoNoteTag] else [])

/-- The Context handed to a content handler for tag `t`: the base Context
with the corresponding content field copied from the message (bot.go lines
241, 246, 251, 256, 261, 266, 271, 276; the Text case attaches nothing
beyond the base Context). -/
def contentCtx (m : Msg) (t : List Char) : Context :=
  if t = photoTag then { baseCtx m with photo := m.photo }
  else if t = videoTag then { baseCtx m with video := m.video }
  else if t = voiceTag then { baseCtx m with voice := m.voice }
  else if t = documentTag then { baseCtx m with document := m.document }
  else if t = animationTag then { baseCtx m with animation := m.animation }
  else if t = stickerTag then { baseCtx m with sticker := m.sticker }
  else if t = audioTag then { baseCtx m with audio := m.audio }
  else if t = videoNoteTag then { baseCtx m with videoNote := m.videoNote }
  else baseCtx m

/-- A value passed to the outbound parameter builder. -/
inductive ParamValue where
  | intV (i : Int)
  | strV (s : String)
deriving DecidableEq, Repr

/-- Modelled from the spec: the parameter builder (`NewParamBuilder` /
`Add` / `Build`) is code of this repository that is not under src/ (only
its callers are).  Per the spec a builder "omit[s] absent/default fields
deterministically: a field is included iff its value is
non-default/non-empty". -/
def paramIsDefault : ParamValue → Bool
  | .intV i => i = 0
  | .strV s => s = ""

/-- Modelled from the spec: one `Add(key, value)` step of the parameter
builder, keeping the entry iff the value is non-default. -/
def paramAdd (ps : List (String × ParamValue)) (k : String) (v : ParamValue) :
    List (String × ParamValue) :=
  if paramIsDefault v then ps else ps ++ [(k, v)]

/-- One outbound API Transport invocation: operation name and parameter
mapping, as handed to `makeAPIRequest`. -/
structure APICall where
  op : String
  params : List (String × ParamValue)
deriving DecidableEq, Repr

/-- `EditMessageTextRequest` (requests.go lines 174-179); the reply markup
is opaque to the claims and modelled as `Option Nat`. -/
structure EditMessageTextRequest where
  chatId : Int
  messageId : Int
  text : String
  replyMarkup : Option Nat := none
deriving DecidableEq, Repr

/-- `Bot.EditMessageText` (bot.go lines 1490-1493): builds only `chat_id`
and `message_id` and invokes the operation named `getMyShortDescription`. -/
def EditMessageText (req : EditMessageTextRequest) : APICall :=
  { op := "getMyShortDescription",
    params := paramAdd (paramAdd [] "chat_id" (.intV req.chatId))
      "message_id" (.intV req.messageId) }

theorem splitOnChar_cons (sep c : Char) (rest : List Char) :
    splitOnChar sep (c :: rest) =
      match splitOnChar sep rest with
      | [] => [[c]]
      | t :: ts => if c = sep then [] :: t :: ts else (c :: t) :: ts := rfl

theorem splitOnChar_ne_nil (sep : Char) (s : List Char) : splitOnChar sep s ≠ [] := by
  induction s with
  | nil => simp [splitOnChar]
  | cons c rest ih =>
    rw [splitOnChar_cons]
    cases h : splitOnChar sep rest with
    | nil => simp
    | cons t ts =>
      by_cases hc : c = sep <;> simp [hc]

theorem splitOnChar_no_sep (sep : Char) (s : List Char) (h : sep ∉ s) :
    splitOnChar sep s = [s] := by
  induction s with
  | nil => rfl
  | cons c rest ih =>
    have hc : ¬(c = sep) := fun e => h (e ▸ List.mem_cons_self c rest)
    have hrest : sep ∉ rest := fun e => h (List.mem_cons_of_mem c e)
    rw [splitOnChar_cons, ih hrest]
    simp [hc]

theorem splitOnChar_append (sep : Char) (a b : List Char) (h : sep ∉ a) :
    splitOnChar sep (a ++ sep :: b) = a :: splitOnChar sep b := by
  induction a with
  | nil =>
    rw [List.nil_append, splitOnChar_cons]
    cases hb : splitOnChar sep b with
    | nil => exact absurd hb (splitOnChar_ne_nil sep b)
    | cons t ts => simp
  | cons c a' ih =>
    have hc : ¬(c = sep) := fun e => h (e ▸ List.mem_cons_self c a')
    have ha' : sep ∉ a' := fun e => h (List.mem_cons_of_mem c e)
    rw [List.cons_append, splitOnChar_cons, ih ha']
    simp [hc]

theorem splitOnChar_head (sep c : Char) (rest : List Char) (hc : ¬(c = sep)) :
    ∃ t ts, splitOnChar sep (c :: rest) = (c :: t) :: ts := by
  rw [splitOnChar_cons]
  cases h : splitOnChar sep rest with
  | nil => exact absurd h (splitOnChar_ne_nil sep rest)
  | cons t ts => exact ⟨t, ts, by simp [hc]⟩

theorem lookupA_nil {α : Type} (k : List Char) :
    lookupA ([] : List (List Char × α)) k = none := rfl

theorem lookupA_cons {α : Type} (k1 : List Char) (v1 : α)
    (rest : List (List Char × α)) (k : List Char) :
    lookupA ((k1, v1) :: rest) k = if k1 = k then some v1 else lookupA rest k := rfl

theorem lookupA_map_overwrite {α : Type} (m : List (List Char × α)) (k : List Char)
    (v : α) (h : m.any (fun p => p.1 == k) = true) :
    lookupA (m.map (fun p => if p.1 = k then (k, v) else p)) k = some v := by
  induction m with
  | nil => simp at h
  | cons p rest ih =>
    obtain ⟨k1, v1⟩ := p
    rw [List.map_cons]
    by_cases hp : k1 = k
    · rw [if_pos hp, lookupA_cons, if_pos rfl]
    · rw [if_neg hp, lookupA_cons, if_neg hp]
      have hr : rest.any (fun p => p.1 == k) = true := by
        simp only [List.any_cons, Bool.or_eq_true, beq_iff_eq] at h
        rcases h with h | h
        · exact absurd h hp
        · exact h
      exact ih hr

theorem lookupA_append_last {α : Type} (m : List (List Char × α)) (k : List Char)
    (v : α) (h : m.any (fun p => p.1 == k) = false) :
    lookupA (m ++ [(k, v)]) k = some v := by
  induction m with
  | nil => rw [List.nil_append, lookupA_cons, if_pos rfl]
  | cons p rest ih =>
    obtain ⟨k1, v1⟩ := p
    simp only [List.any_cons, Bool.or_eq_false_iff, beq_eq_false_iff_ne, ne_eq] at h
    rw [List.cons_append, lookupA_cons, if_neg h.1]
    exact ih h.2

theorem lookupA_mapInsert {α : Type} (m : List (List Char × α)) (k : List Char)
    (v : α) : lookupA (mapInsert m k v) k = some v := by
  unfold mapInsert
  cases h : m.any (fun p => p.1 == k) with
  | true =>
    rw [if_pos rfl]
    exact lookupA_map_overwrite m k v h
  | false =>
    rw [if_neg Bool.false_ne_true]
    exact lookupA_append_last m k v h

theorem keys_map_overwrite {α : Type} (m : List (List Char × α)) (k : List Char)
    (v : α) :
    (m.map (fun p => if p.1 = k then (k, v) else p)).map Prod.fst = m.map Prod.fst := by
  induction m with
  | nil => rfl
  | cons p rest ih =>
    by_cases hp : p.1 = k
    · simp [hp, ih]
    · simp [hp, ih]

theorem nodup_mapInsert {α : Type} (m : List (List Char × α)) (k : List Char)
    (v : α) (h : (m.map Prod.fst).Nodup) :
    ((mapInsert m k v).map Prod.fst).Nodup := by
  unfold mapInsert
  cases hy : m.any (fun p => p.1 == k) with
  | true =>
    rw [if_pos rfl, keys_map_overwrite]
    exact h
  | false =>
    have hk : k ∉ m.map Prod.fst := by
      intro hmem
      rcases List.mem_map.mp hmem with ⟨p, hp, hpk⟩
      have : m.any (fun p => p.1 == k) = true :=
        List.any_eq_true.mpr ⟨p, hp, by simp [hpk]⟩
      rw [this] at hy
      exact Bool.noConfusion hy
    rw [if_neg Bool.false_ne_true, List.map_append]
    exact List.Nodup.append h (List.nodup_singleton k)
      (fun a ha hb => hk (by rw [List.mem_singleton.mp hb] at ha; exact ha))

theorem cbLoop_eq_findPrefixed (d : List Char) (ctx : CallbackContext)
    (l : List (List Char × CbHandler)) :
    cbLoop d ctx l =
      match findPrefixed l d with
      | some (k, h) => (h ctx, [(k, ctx)])
      | none => (none, []) := by
  induction l with
  | nil => rfl
  | cons p rest ih =>
    cases p with
    | mk k h =>
      by_cases hk : k.isPrefixOf d
      · simp [cbLoop, findPrefixed, List.find?, hk]
      · simp only [cbLoop, hk, Bool.false_eq_true, if_false]
        rw [ih]
        simp [findPrefixed, List.find?, hk]

def wCtx : Context :=
  { text := [], userId := 1, username := "u", messageId := 2, chatId := 3 }

def e403W : GoErr := .botError 403 "Forbidden"
def e429W : GoErr := .botError 429 "Too Many Requests"
def eGenW : GoErr := .generic "boom"
def hOk : Handler := fun _ => .ok
def hFail403 : Handler := fun _ => .fail e403W
def hFail429 : Handler := fun _ => .fail e429W
def hFailGen : Handler := fun _ => .fail eGenW
def hPanicW : Handler := fun _ => .panics "boom"
def cbOk : CbHandler := fun _ => none
def cbOk2 : CbHandler := fun _ => some (.generic "second")
def hOk2 : Handler := fun _ => .fail (.generic "second")

def emptyBot : Bot :=
  { commandHandler := [], messageHandlers := [], callbackHandlers := [], ehSet := true }

/-- C2: under the Execution Guard, a handler error carrying numeric code
403 or 429 is returned to the caller with the fallback reporter NOT
invoked, while any other handler error is returned to the caller after the
fallback reporter is invoked exactly once with the Context and that
error. -/
theorem C2_error_classification (ehSet : Bool) (ctx : Context) (h : Handler)
    (e : GoErr) (hres : h ctx = .fail e) :
    ((isAPIError e 403 = true ∨ isAPIError e 429 = true) →
      safeExecute ehSet ctx h = (some e, [])) ∧
    (isAPIError e 403 = false → isAPIError e 429 = false → ehSet = true →
      safeExecute ehSet ctx h = (some e, [(ctx, e)])) := by
  constructor
  · intro hc
    rcases hc with hc | hc
    · simp [safeExecute, hres, hc]
    · have h403 : isAPIError e 403 = false := by
        cases e with
        | botError c msg =>
          simp only [isAPIError, decide_eq_true_eq] at hc
          simp only [isAPIError, decide_eq_false_iff_not]
          omega
        | generic msg => rfl
      simp [safeExecute, hres, hc, h403]
  · intro h1 h2 h3
    simp [safeExecute, hres, h1, h2, h3]

theorem C2_witness :
    safeExecute true wCtx hFail403 = (some e403W, []) ∧
    safeExecute true wCtx hFail429 = (some e429W, []) ∧
    safeExecute true wCtx hFailGen = (some eGenW, [(wCtx, eGenW)]) :=
  ⟨(C2_error_classification true wCtx hFail403 e403W rfl).1 (Or.inl (by decide)),
   (C2_error_classification true wCtx hFail429 e429W rfl).1 (Or.inr (by decide)),
   (C2_error_classification true wCtx hFailGen eGenW rfl).2 (by decide) (by decide) rfl⟩

/-- C3: a runtime fault (panic) raised by a handler under the Execution
Guard does not escape the guard boundary: the fallback reporter runs
exactly once with the synthetic error describing the fault, and the guard
returns normally (the dispatcher does not crash). -/
theorem C3_panic_contained (ctx : Context) (h : Handler) (r : String)
    (hres : h ctx = .panics r) :
    safeExecute true ctx h = (none, [(ctx, .generic ("handler panic: " ++ r))]) ∧
    (safeExecute true ctx h).2.length = 1 := by
  unfold safeExecute
  rw [hres]
  exact ⟨rfl, rfl⟩

theorem C3_witness :
    safeExecute true wCtx hPanicW =
      (none, [(wCtx, .generic ("handler panic: " ++ "boom"))]) ∧
    (safeExecute true wCtx hPanicW).2.length = 1 :=
  C3_panic_contained wCtx hPanicW "boom" rfl

def bC6 : Bot :=
  { commandHandler := [("boom".data, hPanicW)], messageHandlers := [],
    callbackHandlers := [], ehSet := true }

def mC6 : Msg := { text := "/boom".data }

/-- C6 counterexample: after a recovered panic the Execution Guard returns
the zero value of its unnamed error result, i.e. `nil` — not a non-nil
synthetic error — both directly from `safeExecute` and as received by
`handleMessageUpdate` dispatching the command `/boom` to a panicking
handler. -/
theorem C6_counterexample :
    (safeExecute true wCtx hPanicW).1 = none ∧
    (handleMessageUpdate bC6 (some mC6)).retErr = none := by
  exact ⟨rfl, rfl⟩

/-- C6 amended: after a recovered panic the guard returns `nil` to its
caller (no error is propagated to `handleMessageUpdate`); the synthetic
error carrying the fault's description is delivered only to the fallback
reporter. -/
theorem C6_amended_nil_return (ehSet : Bool) (ctx : Context) (h : Handler)
    (r : String) (hres : h ctx = .panics r) :
    (safeExecute ehSet ctx h).1 = none ∧
    (ehSet = true →
      (safeExecute ehSet ctx h).2 = [(ctx, .generic ("handler panic: " ++ r))]) := by
  unfold safeExecute
  rw [hres]
  cases ehSet with
  | false => exact ⟨rfl, fun he => Bool.noConfusion he⟩
  | true => exact ⟨rfl, fun _ => rfl⟩

theorem C6_amended_witness :
    (safeExecute true wCtx hPanicW).1 = none ∧
    (safeExecute true wCtx hPanicW).2 =
      [(wCtx, .generic ("handler panic: " ++ "boom"))] :=
  ⟨(C6_amended_nil_return true wCtx hPanicW "boom" rfl).1,
   (C6_amended_nil_return true wCtx hPanicW "boom" rfl).2 rfl⟩

/-- C9: in both the message-handler and the callback-handler registry,
registering under an already-used key succeeds silently and a subsequent
lookup yields the second handler (last-registration-wins), and registration
preserves uniqueness of keys within each registry. -/
theorem C9_last_registration_wins (b : Bot) (k : List Char) (h1 h2 : Handler)
    (c1 c2 : CbHandler) :
    lookupA (OnMessage (OnMessage b k h1) k h2).messageHandlers k = some h2 ∧
    lookupA (OnCallback (OnCallback b k c1) k c2).callbackHandlers k = some c2 ∧
    ((b.messageHandlers.map Prod.fst).Nodup →
      ((OnMessage (OnMessage b k h1) k h2).messageHandlers.map Prod.fst).Nodup) ∧
    ((b.callbackHandlers.map Prod.fst).Nodup →
      ((OnCallback (OnCallback b k c1) k c2).callbackHandlers.map Prod.fst).Nodup) := by
  refine ⟨lookupA_mapInsert _ k h2, lookupA_mapInsert _ k c2, ?_, ?_⟩
  · intro hn
    exact nodup_mapInsert _ k h2 (nodup_mapInsert _ k h1 hn)
  · intro hn
    exact nodup_mapInsert _ k c2 (nodup_mapInsert _ k c1 hn)

theorem C9_witness :
    lookupA (OnMessage (OnMessage emptyBot textTag hOk) textTag hOk2).messageHandlers
      textTag = some hOk2 ∧
    lookupA (OnCallback (OnCallback emptyBot textTag cbOk) textTag cbOk2).callbackHandlers
      textTag = some cbOk2 ∧
    ((OnMessage (OnMessage emptyBot textTag hOk) textTag hOk2).messageHandlers.map
      Prod.fst).Nodup ∧
    ((OnCallback (OnCallback emptyBot textTag cbOk) textTag cbOk2).callbackHandlers.map
      Prod.fst).Nodup :=
  ⟨(C9_last_registration_wins emptyBot textTag hOk hOk2 cbOk cbOk2).1,
   (C9_last_registration_wins emptyBot textTag hOk hOk2 cbOk cbOk2).2.1,
   (C9_last_registration_wins emptyBot textTag hOk hOk2 cbOk cbOk2).2.2.1 (by decide),
   (C9_last_registration_wins emptyBot textTag hOk hOk2 cbOk cbOk2).2.2.2 (by decide)⟩

/-- C10: for every EditMessageTextRequest, `Bot.EditMessageText` issues an
API Transport invocation named `getMyShortDescription` (not
`editMessageText`) whose parameter mapping holds only `chat_id` and
`message_id`; the request's Text and ReplyMarkup fields never appear. -/
theorem C10_editMessageText_miswired (req : EditMessageTextRequest) :
    (EditMessageText req).op = "getMyShortDescription" ∧
    (EditMessageText req).op ≠ "editMessageText" ∧
    (EditMessageText req).params.map Prod.fst ⊆ ["chat_id", "message_id"] ∧
    "text" ∉ (EditMessageText req).params.map Prod.fst ∧
    "reply_markup" ∉ (EditMessageText req).params.map Prod.fst ∧
    (EditMessageText ⟨5, 7, "hello", some 3⟩).params =
      [("chat_id", .intV 5), ("message_id", .intV 7)] := by
  have hcases : (EditMessageText req).params.map Prod.fst = [] ∨
      (EditMessageText req).params.map Prod.fst = ["chat_id"] ∨
      (EditMessageText req).params.map Prod.fst = ["message_id"] ∨
      (EditMessageText req).params.map Prod.fst = ["chat_id", "message_id"] := by
    unfold EditMessageText paramAdd
    by_cases h1 : paramIsDefault (.intV req.chatId) = true <;>
      by_cases h2 : paramIsDefault (.intV req.messageId) = true <;>
        simp [h1, h2]
  refine ⟨rfl, (by decide : ("getMyShortDescription" : String) ≠ "editMessageText"),
    ?_, ?_, ?_, by decide⟩ <;>
    rcases hcases with hc | hc | hc | hc <;> rw [hc] <;> decide

theorem C10_witness :
    (EditMessageText ⟨5, 7, "hello", some 3⟩).op = "getMyShortDescription" ∧
    (EditMessageText ⟨5, 7, "hello", some 3⟩).op ≠ "editMessageText" ∧
    (EditMessageText ⟨5, 7, "hello", some 3⟩).params.map Prod.fst ⊆
      ["chat_id", "message_id"] ∧
    "text" ∉ (EditMessageText ⟨5, 7, "hello", some 3⟩).params.map Prod.fst ∧
    "reply_markup" ∉ (EditMessageText ⟨5, 7, "hello", some 3⟩).params.map Prod.fst :=
  ⟨(C10_editMessageText_miswired ⟨5, 7, "hello", some 3⟩).1,
   (C10_editMessageText_miswired ⟨5, 7, "hello", some 3⟩).2.1,
   (C10_editMessageText_miswired ⟨5, 7, "hello", some 3⟩).2.2.1,
   (C10_editMessageText_miswired ⟨5, 7, "hello", some 3⟩).2.2.2.1,
   (C10_editMessageText_miswired ⟨5, 7, "hello", some 3⟩).2.2.2.2.1⟩

/-- C4 amended: for every callback query at most one callback handler is
invoked; a query whose data exactly equals a registered key fires that
key's handler even if another registered key is a prefix of the data;
otherwise the handler of the first key in the registry's iteration order
(which for a Go map is implementation-defined, not necessarily registration
order) that is a prefix of the data fires; if no key matches, the router
logs and returns with no error and no invocation. -/
theorem C4_amended_callback_selection (b : Bot) (q : CallbackQuery) :
    (handleCallbackQuery b q).2.length ≤ 1 ∧
    (∀ h, lookupA b.callbackHandlers q.data = some h →
      handleCallbackQuery b q = (h (mkCbCtx q), [(q.data, mkCbCtx q)])) ∧
    (lookupA b.callbackHandlers q.data = none →
      ∀ k h, findPrefixed b.callbackHandlers q.data = some (k, h) →
        handleCallbackQuery b q = (h (mkCbCtx q), [(k, mkCbCtx q)])) ∧
    (lookupA b.callbackHandlers q.data = none →
      findPrefixed b.callbackHandlers q.data = none →
      handleCallbackQuery b q = (none, [])) := by
  refine ⟨?_, ?_, ?_, ?_⟩
  · unfold handleCallbackQuery
    cases hl : lookupA b.callbackHandlers q.data with
    | some h => simp
    | none =>
      rw [cbLoop_eq_findPrefixed]
      cases hf : findPrefixed b.callbackHandlers q.data with
      | none => simp
      | some p =>
        obtain ⟨k, h⟩ := p
        simp
  · intro h hl
    unfold handleCallbackQuery
    rw [hl]
  · intro hl k h hf
    unfold handleCallbackQuery
    rw [hl, cbLoop_eq_findPrefixed, hf]
  · intro hl hf
    unfold handleCallbackQuery
    rw [hl, cbLoop_eq_findPrefixed, hf]

def bC4W : Bot :=
  { emptyBot with callbackHandlers := [(['y', 'e', 's'], cbOk2), (['y', 'e'], cbOk)] }

def qC4W : CallbackQuery := { id := "2", data := ['y', 'e', 's'] }

theorem C4_witness :
    (handleCallbackQuery bC4W qC4W).2.length ≤ 1 ∧
    handleCallbackQuery bC4W qC4W =
      (cbOk2 (mkCbCtx qC4W), [(qC4W.data, mkCbCtx qC4W)]) :=
  ⟨(C4_amended_callback_selection bC4W qC4W).1,
   (C4_amended_callback_selection bC4W qC4W).2.1 cbOk2 rfl⟩

def cb1 : CbHandler := fun _ => none
def cb2 : CbHandler := fun _ => some (.generic "other")

/-- The callback registry as registered: key "a" first, then key "ab". -/
def regB : Bot := OnCallback (OnCallback emptyBot ['a'] cb1) ['a', 'b'] cb2

/-- The same map contents in another legal Go-map iteration order. -/
def iterB : Bot := { regB with callbackHandlers := [(['a', 'b'], cb2), (['a'], cb1)] }

def qCE : CallbackQuery := { id := "1", data := ['a', 'b', 'c'] }

/-- C4 counterexample: with keys "a" (registered first) and "ab" both
prefixes of the data "abc" and no exact match, a legal iteration order of
the same registry fires the handler of "ab", not that of the first
registered prefix key "a"; which handler fires depends on the
implementation-defined iteration order. -/
theorem C4_counterexample :
    iterB.callbackHandlers.Perm regB.callbackHandlers ∧
    (findPrefixed regB.callbackHandlers qCE.data).map Prod.fst = some ['a'] ∧
    lookupA iterB.callbackHandlers qCE.data = none ∧
    (handleCallbackQuery iterB qCE).2.map Prod.fst = [['a', 'b']] ∧
    (['a', 'b'] : List Char) ≠ ['a'] := by
  refine ⟨?_, rfl, rfl, rfl, by decide⟩
  show ([(['a', 'b'], cb2), (['a'], cb1)] :
      List (List Char × CbHandler)).Perm [(['a'], cb1), (['a', 'b'], cb2)]
  exact List.Perm.swap (['a'], cb1) (['a', 'b'], cb2) []

/-- The Context carrying the whitespace-split argument tokens attached at
bot.go lines 210-213. -/
def ctxWithArgs (m : Msg) (as : List (List Char)) : Context :=
  { baseCtx m with args := as }

/-- C1: for a registered command name C and inbound text `/C arg1 arg2`,
the command router invokes the handler registered for C through the
Execution Guard with the Context's argument list `[arg1, arg2]`; the
command name is the token after the leading slash and before the next
slash or whitespace, compared case-sensitively against the registry with
no bot-suffix stripping. -/
theorem C1_command_dispatch (b : Bot) (m : Msg) (C a1 a2 : List Char) (h : Handler)
    (hC1 : ' ' ∉ C) (hC2 : '/' ∉ C) (ha1 : ' ' ∉ a1) (ha2 : ' ' ∉ a2)
    (hm : m.text = '/' :: (C ++ ' ' :: (a1 ++ ' ' :: a2)))
    (hreg : lookupA b.commandHandler C = some h) :
    handleMessageUpdate b (some m) =
      ⟨(safeExecute b.ehSet (ctxWithArgs m [a1, a2]) h).1,
        [(C, ctxWithArgs m [a1, a2])],
        (safeExecute b.ehSet (ctxWithArgs m [a1, a2]) h).2⟩ ∧
    (ctxWithArgs m [a1, a2]).args = [a1, a2] ∧
    commandName m.text = some C ∧
    ∀ rest : List Char, ' ' ∉ rest →
      commandName ('/' :: (C ++ '/' :: rest)) = some C := by
  have hslashC : (' ' : Char) ∉ '/' :: C := by
    intro hmem
    rcases List.mem_cons.mp hmem with h' | h'
    · exact absurd h' (by decide)
    · exact hC1 h'
  have hsp : splitOnChar ' ' m.text = ('/' :: C) :: a1 :: [a2] := by
    rw [hm,
      show '/' :: (C ++ ' ' :: (a1 ++ ' ' :: a2)) =
        ('/' :: C) ++ ' ' :: (a1 ++ ' ' :: a2) from rfl,
      splitOnChar_append ' ' ('/' :: C) _ hslashC,
      splitOnChar_append ' ' a1 a2 ha1,
      splitOnChar_no_sep ' ' a2 ha2]
  have hcm : splitOnChar '/' ('/' :: C) = [[], C] := by
    rw [show ('/' :: C : List Char) = [] ++ '/' :: C from rfl,
      splitOnChar_append '/' [] C (List.not_mem_nil '/'),
      splitOnChar_no_sep '/' C hC2]
  have hslash : startsWithSlash m.text = true := by
    rw [hm]
    rfl
  refine ⟨?_, rfl, ?_, ?_⟩
  · simp only [handleMessageUpdate, hslash, if_true, hsp, hcm, hreg,
      List.length_cons, ctxWithArgs]
    simp
  · unfold commandName
    rw [hsp]
    simp [hcm]
  · intro rest hrest
    have hall : (' ' : Char) ∉ '/' :: (C ++ '/' :: rest) := by
      intro hmem
      rcases List.mem_cons.mp hmem with h' | h'
      · exact absurd h' (by decide)
      · rcases List.mem_append.mp h' with h'' | h''
        · exact hC1 h''
        · rcases List.mem_cons.mp h'' with h3 | h3
          · exact absurd h3 (by decide)
          · exact hrest h3
    have hsp2 : splitOnChar ' ' ('/' :: (C ++ '/' :: rest)) =
        ['/' :: (C ++ '/' :: rest)] := splitOnChar_no_sep ' ' _ hall
    have hcm2 : splitOnChar '/' ('/' :: (C ++ '/' :: rest)) =
        [] :: C :: splitOnChar '/' rest := by
      rw [show ('/' :: (C ++ '/' :: rest) : List Char) =
          [] ++ '/' :: (C ++ '/' :: rest) from rfl,
        splitOnChar_append '/' [] _ (List.not_mem_nil '/'),
        splitOnChar_append '/' C rest hC2]
    unfold commandName
    rw [hsp2]
    simp [hcm2]

def bC1W : Bot := { emptyBot with commandHandler := [("start".data, hOk)] }

def mC1W : Msg := { text := "/start a b".data }

theorem C1_witness :
    handleMessageUpdate bC1W (some mC1W) =
      ⟨(safeExecute bC1W.ehSet (ctxWithArgs mC1W ["a".data, "b".data]) hOk).1,
        [("start".data, ctxWithArgs mC1W ["a".data, "b".data])],
        (safeExecute bC1W.ehSet (ctxWithArgs mC1W ["a".data, "b".data]) hOk).2⟩ ∧
    (ctxWithArgs mC1W ["a".data, "b".data]).args = ["a".data, "b".data] ∧
    commandName mC1W.text = some "start".data ∧
    commandName ('/' :: ("start".data ++ '/' :: "mybot".data)) = some "start".data := by
  obtain ⟨h1, h2, h3, h4⟩ := C1_command_dispatch bC1W mC1W "start".data "a".data
    "b".data hOk (by decide) (by decide) (by decide) (by decide) (by decide) rfl
  exact ⟨h1, h2, h3, h4 "mybot".data (by decide)⟩

theorem startsWithSlash_true (s : List Char) (h : startsWithSlash s = true) :
    ∃ t, s = '/' :: t := by
  cases s with
  | nil => exact absurd h (by decide)
  | cons c t =>
    have hc : c = '/' := of_decide_eq_true h
    exact ⟨t, by rw [hc]⟩

/-- The two malformed-command branches of `handleMessageUpdate` (bot.go
lines 191-198 and 201-208) are dead code: whenever no handler was invoked,
the returned error is never one of the two 500 parse errors, because
splitting a nonempty text never yields an empty list and splitting a token
that begins with a slash always yields at least two parts. -/
theorem malformed_unreachable (b : Bot) (om : Option Msg)
    (hinv : (handleMessageUpdate b om).invoked = []) :
    (handleMessageUpdate b om).retErr ≠ some (.botError 500 notValidMsg) ∧
    (handleMessageUpdate b om).retErr ≠ some (.botError 500 failedParseMsg) := by
  cases om with
  | none =>
    have hr : (handleMessageUpdate b none).retErr = some (.botError 400 emptyMsgMsg) := rfl
    rw [hr]
    constructor <;> intro heq <;> simp at heq
  | some m =>
    by_cases hsl : startsWithSlash m.text = true
    · obtain ⟨t, hmt⟩ := startsWithSlash_true m.text hsl
      obtain ⟨t1, ts1, hsp0⟩ := splitOnChar_head ' ' '/' t (by decide)
      have hsp : splitOnChar ' ' m.text = ('/' :: t1) :: ts1 := by
        rw [hmt]
        exact hsp0
      obtain ⟨t2, ts2, h2⟩ : ∃ t2 ts2,
          splitOnChar '/' ('/' :: t1) = [] :: t2 :: ts2 := by
        cases hx : splitOnChar '/' t1 with
        | nil => exact absurd hx (splitOnChar_ne_nil '/' t1)
        | cons a as =>
          refine ⟨a, as, ?_⟩
          rw [splitOnChar_cons, hx]
          simp
      simp only [handleMessageUpdate, hsl, eq_self_iff_true, if_true, hsp, h2] at hinv ⊢
      cases hl : lookupA b.commandHandler t2 with
      | some h =>
        simp only [hl] at hinv
        exact absurd hinv (by simp)
      | none =>
        simp only [hl]
        constructor <;> intro heq <;> simp at heq
    · simp only [handleMessageUpdate, Bool.not_eq_true] at hsl
      simp only [handleMessageUpdate, hsl, Bool.false_eq_true, if_false] at hinv ⊢
      by_cases h1 : m.text = []
      all_goals simp only [h1, ne_eq, not_true_eq_false, not_false_eq_true,
        if_true, if_false] at hinv ⊢
      · by_cases h2 : m.photo.isSome = true
        all_goals simp only [h2, if_true, if_false, Bool.false_eq_true] at hinv ⊢
        · cases hl : lookupA b.messageHandlers photoTag with
          | some h =>
            simp only [hl] at hinv
            exact absurd hinv (by simp)
          | none =>
            simp only [hl]
            constructor <;> intro heq <;> simp at heq
        · by_cases h3 : m.video.isSome = true
          all_goals simp only [h3, if_true, if_false, Bool.false_eq_true] at hinv ⊢
          · cases hl : lookupA b.messageHandlers videoTag with
            | some h =>
              simp only [hl] at hinv
              exact absurd hinv (by simp)
            | none =>
              simp only [hl]
              constructor <;> intro heq <;> simp at heq
          · by_cases h4 : m.voice.isSome = true
            all_goals simp only [h4, if_true, if_false, Bool.false_eq_true] at hinv ⊢
            · cases hl : lookupA b.messageHandlers voiceTag with
              | some h =>
                simp only [hl] at hinv
                exact absurd hinv (by simp)
              | none =>
                simp only [hl]
                constructor <;> intro heq <;> simp at heq
            · by_cases h5 : m.document.isSome = true
              all_goals simp only [h5, if_true, if_false, Bool.false_eq_true] at hinv ⊢
              · cases hl : lookupA b.messageHandlers documentTag with
                | some h =>
                  simp only [hl] at hinv
                  exact absurd hinv (by simp)
                | none =>
                  simp only [hl]
                  constructor <;> intro heq <;> simp at heq
              · by_cases h6 : m.animation.isSome = true
                all_goals simp only [h6, if_true, if_false, Bool.false_eq_true] at hinv ⊢
                · cases hl : lookupA b.messageHandlers animationTag with
                  | some h =>
                    simp only [hl] at hinv
                    exact absurd hinv (by simp)
                  | none =>
                    simp only [hl]
                    constructor <;> intro heq <;> simp at heq
                · by_cases h7 : m.sticker.isSome = true
                  all_goals simp only [h7, if_true, if_false, Bool.false_eq_true] at hinv ⊢
                  · cases hl : lookupA b.messageHandlers stickerTag with
                    | some h =>
                      simp only [hl] at hinv
                      exact absurd hinv (by simp)
                    | none =>
                      simp only [hl]
                      constructor <;> intro heq <;> simp at heq
                  · by_cases h8 : m.audio.isSome = true
                    all_goals simp only [h8, if_true, if_false, Bool.false_eq_true] at hinv ⊢
                    · cases hl : lookupA b.messageHandlers audioTag with
                      | some h =>
                        simp only [hl] at hinv
                        exact absurd hinv (by simp)
                      | none =>
                        simp only [hl]
                        constructor <;> intro heq <;> simp at heq
                    · by_cases h9 : m.videoNote.isSome = true
                      all_goals simp only [h9, if_true, if_false,
                        Bool.false_eq_true] at hinv ⊢
                      · cases hl : lookupA b.messageHandlers videoNoteTag with
                        | some h =>
                          simp only [hl] at hinv
                          exact absurd hinv (by simp)
                        | none =>
                          simp only [hl]
                          constructor <;> intro heq <;> simp at heq
                      · constructor <;> intro heq <;> simp at heq
      · cases hl : lookupA b.messageHandlers textTag with
        | some h =>
          simp only [hl] at hinv
          exact absurd hinv (by simp)
        | none =>
          simp only [hl]
          constructor <;> intro heq <;> simp at heq

def mC5 : Msg := { text := ['/'] }

/-- C5 counterexample: for the message whose text is exactly a slash,
dispatch against an empty command registry reports the unknown-command
error (code 404), not the malformed-command error (code 500, distinct). -/
theorem C5_counterexample :
    handleMessageUpdate emptyBot (some mC5) =
      ⟨some (.botError 404 unknownCommandMsg), [], []⟩ ∧
    GoErr.botError 404 unknownCommandMsg ≠ GoErr.botError 500 notValidMsg ∧
    GoErr.botError 404 unknownCommandMsg ≠ GoErr.botError 500 failedParseMsg :=
  ⟨rfl, by decide, by decide⟩

/-- C5 amended: for text consisting of a sole slash the command name parses
as the empty string, so when no handler is registered under the empty
string, dispatch reports unknown-command (404) and invokes no handler; the
malformed-command branches are unreachable whenever no handler was invoked,
because splitting the first token, which begins with a slash, on slashes
always yields at least two parts. -/
theorem C5_amended_slash_unknown (b : Bot) (m : Msg)
    (hm : m.text = ['/'])
    (hno : lookupA b.commandHandler [] = none) :
    handleMessageUpdate b (some m) =
      ⟨some (.botError 404 unknownCommandMsg), [], []⟩ ∧
    ∀ om : Option Msg, (handleMessageUpdate b om).invoked = [] →
      (handleMessageUpdate b om).retErr ≠ some (.botError 500 notValidMsg) ∧
      (handleMessageUpdate b om).retErr ≠ some (.botError 500 failedParseMsg) := by
  constructor
  · have hsl : startsWithSlash m.text = true := by
      rw [hm]
      rfl
    have hsp : splitOnChar ' ' m.text = [['/']] := by
      rw [hm]
      rfl
    have hcm : splitOnChar '/' (['/'] : List Char) = [[], []] := rfl
    simp [handleMessageUpdate, hsl, hsp, hcm, hno]
  · exact fun om hinv => malformed_unreachable b om hinv

theorem C5_witness :
    handleMessageUpdate emptyBot (some mC5) =
      ⟨some (.botError 404 unknownCommandMsg), [], []⟩ ∧
    (handleMessageUpdate emptyBot (some mC5)).retErr ≠
      some (.botError 500 notValidMsg) ∧
    (handleMessageUpdate emptyBot (some mC5)).retErr ≠
      some (.botError 500 failedParseMsg) := by
  obtain ⟨h1, h2⟩ := C5_amended_slash_unknown emptyBot mC5 rfl rfl
  obtain ⟨h3, h4⟩ := h2 (some mC5) (by rw [h1])
  exact ⟨h1, h3, h4⟩

def hPhotoW : Handler := fun _ => .ok

def bC7 : Bot := { emptyBot with messageHandlers := [(photoTag, hPhotoW)] }

def mC7 : Msg := { text := "hi".data, photo := some 1 }

/-- C7 counterexample: a message with nonempty text and a populated photo
field, dispatched against a registry holding a Photo handler but no Text
handler — the router does not advance from the text miss to the photo
field: no handler is invoked and nil is returned. -/
theorem C7_counterexample :
    lookupA bC7.messageHandlers photoTag = some hPhotoW ∧
    mC7.photo.isSome = true ∧
    lookupA bC7.messageHandlers textTag = none ∧
    handleMessageUpdate bC7 (some mC7) = ⟨none, [], []⟩ :=
  ⟨rfl, rfl, rfl, rfl⟩

theorem contentCtx_photo (m : Msg) :
    contentCtx m photoTag = { baseCtx m with photo := m.photo } := by
  unfold contentCtx
  rw [if_pos rfl]

theorem contentCtx_video (m : Msg) :
    contentCtx m videoTag = { baseCtx m with video := m.video } := by
  unfold contentCtx
  rw [if_neg (by decide), if_pos rfl]

theorem contentCtx_voice (m : Msg) :
    contentCtx m voiceTag = { baseCtx m with voice := m.voice } := by
  unfold contentCtx
  rw [if_neg (by decide), if_neg (by decide), if_pos rfl]

theorem contentCtx_document (m : Msg) :
    contentCtx m documentTag = { baseCtx m with document := m.document } := by
  unfold contentCtx
  rw [if_neg (by decide), if_neg (by decide), if_neg (by decide), if_pos rfl]

theorem contentCtx_animation (m : Msg) :
    contentCtx m animationTag = { baseCtx m with animation := m.animation } := by
  unfold contentCtx
  rw [if_neg (by decide), if_neg (by decide), if_neg (by decide),
    if_neg (by decide), if_pos rfl]

theorem contentCtx_sticker (m : Msg) :
    contentCtx m stickerTag = { baseCtx m with sticker := m.sticker } := by
  unfold contentCtx
  rw [if_neg (by decide), if_neg (by decide), if_neg (by decide),
    if_neg (by decide), if_neg (by decide), if_pos rfl]

theorem contentCtx_audio (m : Msg) :
    contentCtx m audioTag = { baseCtx m with audio := m.audio } := by
  unfold contentCtx
  rw [if_neg (by decide), if_neg (by decide), if_neg (by decide),
    if_neg (by decide), if_neg (by decide), if_neg (by decide), if_pos rfl]

theorem contentCtx_videoNote (m : Msg) :
    contentCtx m videoNoteTag = { baseCtx m with videoNote := m.videoNote } := by
  unfold contentCtx
  rw [if_neg (by decide), if_neg (by decide), if_neg (by decide),
    if_neg (by decide), if_neg (by decide), if_neg (by decide),
    if_neg (by decide), if_pos rfl]

theorem contentCtx_text (m : Msg) : contentCtx m textTag = baseCtx m := by
  unfold contentCtx
  rw [if_neg (by decide), if_neg (by decide), if_neg (by decide),
    if_neg (by decide), if_neg (by decide), if_neg (by decide),
    if_neg (by decide), if_neg (by decide)]

theorem if_singleton_nil {c : Prop} [Decidable c] {α : Type} {x : α}
    (h : (if c then [x] else []) = ([] : List α)) : ¬c := by
  intro hc
  rw [if_pos hc] at h
  exact List.noConfusion h

theorem bool_eq_false_of_not_true {b : Bool} (h : ¬(b = true)) : b = false := by
  cases b with
  | false => rfl
  | true => exact absurd rfl h

/-- C7 amended: on a registry miss for the first populated content field —
whichever of the nine fields, taken as the head of the priority-ordered
populated-field list — the router stops: the Go switch selects only the
first matching case, so no later populated field is examined, no handler
is invoked, and dispatch returns nil. -/
theorem C7_amended_no_fallthrough (b : Bot) (m : Msg)
    (hsl : startsWithSlash m.text = false) (t : List Char)
    (hhead : (popList m).head? = some t)
    (hmiss : lookupA b.messageHandlers t = none) :
    handleMessageUpdate b (some m) = ⟨none, [], []⟩ := by
  by_cases h1 : m.text = []
  case neg =>
    have hh : (popList m).head? = some textTag := by simp [popList, h1]
    rw [hh] at hhead
    obtain rfl := (Option.some_inj.mp hhead).symm
    simp [handleMessageUpdate, hsl, h1, hmiss]
  case pos =>
  by_cases h2 : m.photo.isSome = true
  case pos =>
    have hh : (popList m).head? = some photoTag := by simp [popList, h1, h2]
    rw [hh] at hhead
    obtain rfl := (Option.some_inj.mp hhead).symm
    simp [handleMessageUpdate, startsWithSlash, hsl, h1, h2, hmiss]
  case neg =>
  have h2f : m.photo.isSome = false := bool_eq_false_of_not_true h2
  by_cases h3 : m.video.isSome = true
  case pos =>
    have hh : (popList m).head? = some videoTag := by
      simp [popList, h1, h2f, h3]
    rw [hh] at hhead
    obtain rfl := (Option.some_inj.mp hhead).symm
    simp [handleMessageUpdate, startsWithSlash, hsl, h1, h2f, h3, hmiss]
  case neg =>
  have h3f : m.video.isSome = false := bool_eq_false_of_not_true h3
  by_cases h4 : m.voice.isSome = true
  case pos =>
    have hh : (popList m).head? = some voiceTag := by
      simp [popList, h1, h2f, h3f, h4]
    rw [hh] at hhead
    obtain rfl := (Option.some_inj.mp hhead).symm
    simp [handleMessageUpdate, startsWithSlash, hsl, h1, h2f, h3f, h4, hmiss]
  case neg =>
  have h4f : m.voice.isSome = false := bool_eq_false_of_not_true h4
  by_cases h5 : m.document.isSome = true
  case pos =>
    have hh : (popList m).head? = some documentTag := by
      simp [popList, h1, h2f, h3f, h4f, h5]
    rw [hh] at hhead
    obtain rfl := (Option.some_inj.mp hhead).symm
    simp [handleMessageUpdate, startsWithSlash, hsl, h1, h2f, h3f, h4f, h5, hmiss]
  case neg =>
  have h5f : m.document.isSome = false := bool_eq_false_of_not_true h5
  by_cases h6 : m.animation.isSome = true
  case pos =>
    have hh : (popList m).head? = some animationTag := by
      simp [popList, h1, h2f, h3f, h4f, h5f, h6]
    rw [hh] at hhead
    obtain rfl := (Option.some_inj.mp hhead).symm
    simp [handleMessageUpdate, startsWithSlash, hsl, h1, h2f, h3f, h4f, h5f,
      h6, hmiss]
  case neg =>
  have h6f : m.animation.isSome = false := bool_eq_false_of_not_true h6
  by_cases h7 : m.sticker.isSome = true
  case pos =>
    have hh : (popList m).head? = some stickerTag := by
      simp [popList, h1, h2f, h3f, h4f, h5f, h6f, h7]
    rw [hh] at hhead
    obtain rfl := (Option.some_inj.mp hhead).symm
    simp [handleMessageUpdate, startsWithSlash, hsl, h1, h2f, h3f, h4f, h5f,
      h6f, h7, hmiss]
  case neg =>
  have h7f : m.sticker.isSome = false := bool_eq_false_of_not_true h7
  by_cases h8 : m.audio.isSome = true
  case pos =>
    have hh : (popList m).head? = some audioTag := by
      simp [popList, h1, h2f, h3f, h4f, h5f, h6f, h7f, h8]
    rw [hh] at hhead
    obtain rfl := (Option.some_inj.mp hhead).symm
    simp [handleMessageUpdate, startsWithSlash, hsl, h1, h2f, h3f, h4f, h5f,
      h6f, h7f, h8, hmiss]
  case neg =>
  have h8f : m.audio.isSome = false := bool_eq_false_of_not_true h8
  by_cases h9 : m.videoNote.isSome = true
  case pos =>
    have hh : (popList m).head? = some videoNoteTag := by
      simp [popList, h1, h2f, h3f, h4f, h5f, h6f, h7f, h8f, h9]
    rw [hh] at hhead
    obtain rfl := (Option.some_inj.mp hhead).symm
    simp [handleMessageUpdate, startsWithSlash, hsl, h1, h2f, h3f, h4f, h5f,
      h6f, h7f, h8f, h9, hmiss]
  case neg =>
  have h9f : m.videoNote.isSome = false := bool_eq_false_of_not_true h9
  have hnil : popList m = [] := by
    simp [popList, h1, h2f, h3f, h4f, h5f, h6f, h7f, h8f, h9f]
  rw [hnil] at hhead
  exact absurd hhead (by simp)

def mC7W : Msg := { text := [], photo := some 4, video := some 5 }

def bC7V : Bot := { emptyBot with messageHandlers := [(audioTag, hPhotoW)] }

def mC7V : Msg := { text := [], video := some 5, audio := some 6 }

theorem C7_witness :
    handleMessageUpdate emptyBot (some mC7) = ⟨none, [], []⟩ ∧
    handleMessageUpdate emptyBot (some mC7W) = ⟨none, [], []⟩ ∧
    handleMessageUpdate bC7V (some mC7V) = ⟨none, [], []⟩ :=
  ⟨C7_amended_no_fallthrough emptyBot mC7 rfl textTag (by decide) rfl,
   C7_amended_no_fallthrough emptyBot mC7W rfl photoTag (by decide) rfl,
   C7_amended_no_fallthrough bC7V mC7V rfl videoTag (by decide) rfl⟩

/-- C8: for a non-command message the router inspects the content fields in
the fixed priority order (text, photo, video, voice, document, animation,
sticker, audio, video-note) and dispatches on the first populated one: with
exactly one populated field, the handler registered for that field's tag is
invoked with the Context's corresponding field set; if no handler is
registered for that tag, no handler fires and no error is returned; if no
content field is populated at all, the unsupported-message-type error is
reported and no handler is invoked. -/
theorem C8_content_priority (b : Bot) (m : Msg)
    (hsl : startsWithSlash m.text = false) :
    (∀ t, popList m = [t] →
      (∀ h, lookupA b.messageHandlers t = some h →
        handleMessageUpdate b (some m) =
          ⟨(safeExecute b.ehSet (contentCtx m t) h).1, [(t, contentCtx m t)],
            (safeExecute b.ehSet (contentCtx m t) h).2⟩) ∧
      (lookupA b.messageHandlers t = none →
        handleMessageUpdate b (some m) = ⟨none, [], []⟩)) ∧
    (popList m = [] →
      handleMessageUpdate b (some m) =
        ⟨some (.botError 400 unsupportedMsg), [], []⟩) := by
  constructor
  · intro t hpop
    by_cases h1 : m.text = []
    case neg =>
      have hmem : textTag ∈ popList m := by simp [popList, h1]
      rw [hpop] at hmem
      have ht : t = textTag := (List.mem_singleton.mp hmem).symm
      subst ht
      constructor
      · intro h hlk
        rw [contentCtx_text]
        simp [handleMessageUpdate, hsl, h1, hlk]
      · intro hlk
        simp [handleMessageUpdate, hsl, h1, hlk]
    case pos =>
    by_cases h2 : m.photo.isSome = true
    case pos =>
      have hmem : photoTag ∈ popList m := by simp [popList, h2]
      rw [hpop] at hmem
      have ht : t = photoTag := (List.mem_singleton.mp hmem).symm
      subst ht
      constructor
      · intro h hlk
        rw [contentCtx_photo]
        simp [handleMessageUpdate, startsWithSlash, hsl, h1, h2, hlk]
      · intro hlk
        simp [handleMessageUpdate, startsWithSlash, hsl, h1, h2, hlk]
    case neg =>
    have h2f : m.photo.isSome = false := bool_eq_false_of_not_true h2
    by_cases h3 : m.video.isSome = true
    case pos =>
      have hmem : videoTag ∈ popList m := by simp [popList, h3]
      rw [hpop] at hmem
      have ht : t = videoTag := (List.mem_singleton.mp hmem).symm
      subst ht
      constructor
      · intro h hlk
        rw [contentCtx_video]
        simp [handleMessageUpdate, startsWithSlash, hsl, h1, h2f, h3, hlk]
      · intro hlk
        simp [handleMessageUpdate, startsWithSlash, hsl, h1, h2f, h3, hlk]
    case neg =>
    have h3f : m.video.isSome = false := bool_eq_false_of_not_true h3
    by_cases h4 : m.voice.isSome = true
    case pos =>
      have hmem : voiceTag ∈ popList m := by simp [popList, h4]
      rw [hpop] at hmem
      have ht : t = voiceTag := (List.mem_singleton.mp hmem).symm
      subst ht
      constructor
      · intro h hlk
        rw [contentCtx_voice]
        simp [handleMessageUpdate, startsWithSlash, hsl, h1, h2f, h3f, h4, hlk]
      · intro hlk
        simp [handleMessageUpdate, startsWithSlash, hsl, h1, h2f, h3f, h4, hlk]
    case neg =>
    have h4f : m.voice.isSome = false := bool_eq_false_of_not_true h4
    by_cases h5 : m.document.isSome = true
    case pos =>
      have hmem : documentTag ∈ popList m := by simp [popList, h5]
      rw [hpop] at hmem
      have ht : t = documentTag := (List.mem_singleton.mp hmem).symm
      subst ht
      constructor
      · intro h hlk
        rw [contentCtx_document]
        simp [handleMessageUpdate, startsWithSlash, hsl, h1, h2f, h3f, h4f, h5, hlk]
      · intro hlk
        simp [handleMessageUpdate, startsWithSlash, hsl, h1, h2f, h3f, h4f, h5, hlk]
    case neg =>
    have h5f : m.document.isSome = false := bool_eq_false_of_not_true h5
    by_cases h6 : m.animation.isSome = true
    case pos =>
      have hmem : animationTag ∈ popList m := by simp [popList, h6]
      rw [hpop] at hmem
      have ht : t = animationTag := (List.mem_singleton.mp hmem).symm
      subst ht
      constructor
      · intro h hlk
        rw [contentCtx_animation]
        simp [handleMessageUpdate, startsWithSlash, hsl, h1, h2f, h3f, h4f, h5f,
          h6, hlk]
      · intro hlk
        simp [handleMessageUpdate, startsWithSlash, hsl, h1, h2f, h3f, h4f, h5f,
          h6, hlk]
    case neg =>
    have h6f : m.animation.isSome = false := bool_eq_false_of_not_true h6
    by_cases h7 : m.sticker.isSome = true
    case pos =>
      have hmem : stickerTag ∈ popList m := by simp [popList, h7]
      rw [hpop] at hmem
      have ht : t = stickerTag := (List.mem_singleton.mp hmem).symm
      subst ht
      constructor
      · intro h hlk
        rw [contentCtx_sticker]
        simp [handleMessageUpdate, startsWithSlash, hsl, h1, h2f, h3f, h4f, h5f,
          h6f, h7, hlk]
      · intro hlk
        simp [handleMessageUpdate, startsWithSlash, hsl, h1, h2f, h3f, h4f, h5f,
          h6f, h7, hlk]
    case neg =>
    have h7f : m.sticker.isSome = false := bool_eq_false_of_not_true h7
    by_cases h8 : m.audio.isSome = true
    case pos =>
      have hmem : audioTag ∈ popList m := by simp [popList, h8]
      rw [hpop] at hmem
      have ht : t = audioTag := (List.mem_singleton.mp hmem).symm
      subst ht
      constructor
      · intro h hlk
        rw [contentCtx_audio]
        simp [handleMessageUpdate, startsWithSlash, hsl, h1, h2f, h3f, h4f, h5f,
          h6f, h7f, h8, hlk]
      · intro hlk
        simp [handleMessageUpdate, startsWithSlash, hsl, h1, h2f, h3f, h4f, h5f,
          h6f, h7f, h8, hlk]
    case neg =>
    have h8f : m.audio.isSome = false := bool_eq_false_of_not_true h8
    by_cases h9 : m.videoNote.isSome = true
    case pos =>
      have hmem : videoNoteTag ∈ popList m := by simp [popList, h9]
      rw [hpop] at hmem
      have ht : t = videoNoteTag := (List.mem_singleton.mp hmem).symm
      subst ht
      constructor
      · intro h hlk
        rw [contentCtx_videoNote]
        simp [handleMessageUpdate, startsWithSlash, hsl, h1, h2f, h3f, h4f, h5f,
          h6f, h7f, h8f, h9, hlk]
      · intro hlk
        simp [handleMessageUpdate, startsWithSlash, hsl, h1, h2f, h3f, h4f, h5f,
          h6f, h7f, h8f, h9, hlk]
    case neg =>
    have h9f : m.videoNote.isSome = false := bool_eq_false_of_not_true h9
    have hnil : popList m = [] := by
      simp [popList, h1, h2f, h3f, h4f, h5f, h6f, h7f, h8f, h9f]
    rw [hnil] at hpop
    exact absurd hpop (by simp)
  · intro hpop
    have e := hpop
    simp only [popList, List.append_eq_nil] at e
    obtain ⟨⟨⟨⟨⟨⟨⟨⟨e1, e2⟩, e3⟩, e4⟩, e5⟩, e6⟩, e7⟩, e8⟩, e9⟩ := e
    have h1 : m.text = [] := not_not.mp (if_singleton_nil e1)
    have h2 : m.photo.isSome = false :=
      bool_eq_false_of_not_true (if_singleton_nil e2)
    have h3 : m.video.isSome = false :=
      bool_eq_false_of_not_true (if_singleton_nil e3)
    have h4 : m.voice.isSome = false :=
      bool_eq_false_of_not_true (if_singleton_nil e4)
    have h5 : m.document.isSome = false :=
      bool_eq_false_of_not_true (if_singleton_nil e5)
    have h6 : m.animation.isSome = false :=
      bool_eq_false_of_not_true (if_singleton_nil e6)
    have h7 : m.sticker.isSome = false :=
      bool_eq_false_of_not_true (if_singleton_nil e7)
    have h8 : m.audio.isSome = false :=
      bool_eq_false_of_not_true (if_singleton_nil e8)
    have h9 : m.videoNote.isSome = false :=
      bool_eq_false_of_not_true (if_singleton_nil e9)
    simp [handleMessageUpdate, startsWithSlash, hsl, h1, h2, h3, h4, h5, h6,
      h7, h8, h9]

def bC8W : Bot := { emptyBot with messageHandlers := [(photoTag, hPhotoW)] }

def mC8W : Msg := { text := [], photo := some 7 }

def mC8X : Msg := { text := "hi".data }

def mC8Y : Msg := { text := [] }

theorem C8_witness :
    handleMessageUpdate bC8W (some mC8W) =
      ⟨(safeExecute bC8W.ehSet (contentCtx mC8W photoTag) hPhotoW).1,
        [(photoTag, contentCtx mC8W photoTag)],
        (safeExecute bC8W.ehSet (contentCtx mC8W photoTag) hPhotoW).2⟩ ∧
    handleMessageUpdate bC8W (some mC8X) = ⟨none, [], []⟩ ∧
    handleMessageUpdate bC8W (some mC8Y) =
      ⟨some (.botError 400 unsupportedMsg), [], []⟩ :=
  ⟨((C8_content_priority bC8W mC8W rfl).1 photoTag (by decide)).1 hPhotoW rfl,
   ((C8_content_priority bC8W mC8X rfl).1 textTag (by decide)).2 rfl,
   (C8_content_priority bC8W mC8Y rfl).2 (by decide)⟩

end Tgx
